import Mathlib

/-!  Verification development for the cv-bountyhunter semantic code search
prototype: a shallow embedding of src/lucian-rag/index_code.py and
src/lucian-rag/query_code.py, followed by theorems about the embedded
functions.  External collaborators (the CPython ast module, the pymongo
client and the MongoDB Atlas vector store, the filesystem walk) are modelled
by their documented behaviour; every function of the repository itself is
translated line by line from the source.  -/

namespace LucianRag

/-- Python float values carried by the modelled code.  The repository code
never performs floating-point arithmetic or comparisons on them (embedding
vectors are only constructed and passed along; relevance scores are produced
and ordered by the external store), so they are represented as rationals to
keep equality and ordering decidable.  The Python literal 0.1 is carried as
the rational 1/10. -/
abbrev PyFloat : Type := ℚ

deriving instance DecidableEq for Except

/-- The class name of a CPython ast node, as tested by the isinstance check
of parse_and_chunk_code.  Nodes of any other class are carried as Other with
their class name. -/
inductive AstNodeKind
  | FunctionDef
  | AsyncFunctionDef
  | ClassDef
  | Other (className : String)
  deriving DecidableEq

/-- One node of a CPython abstract syntax tree, restricted to the attributes
read by the repository code: the class (kind), the name attribute of
definition nodes, and the position attributes read by ast.get_source_segment.
Non-definition nodes never have their name or position read by the chunker;
for them these fields carry defaults. -/
structure AstNode where
  kind : AstNodeKind
  name : String
  lineno : Nat
  col_offset : Nat
  end_lineno : Option Nat
  end_col_offset : Option Nat
  deriving DecidableEq

/-- The result of CPython ast.parse: a Module object, represented by the
sequence of all its nodes in ast.walk order (breadth-first, the module node
itself included as an Other node). -/
structure Module where
  walk_nodes : List AstNode
  deriving DecidableEq

/-- A Python runtime exception propagating out of the modelled code.
typeError models CPython TypeError; operationFailure models a pymongo store
failure. -/
inductive PyExc
  | typeError (msg : String)
  | operationFailure (msg : String)
  deriving DecidableEq

/-- The message of the TypeError raised by CPython when len() is applied to
an ast.Module object, as ast.get_source_segment does to its first argument.
CPython renders the class name between single quotation marks; the quotation
marks are elided here. -/
def moduleHasNoLen : String := "object of type Module has no len"

/-- A Python value passed as the first argument of ast.get_source_segment.
CPython expects the source text (a string); the repository instead passes
the parsed tree (a Module object), so both possibilities are represented. -/
inductive SourceArg
  | ofString (s : String)
  | ofModule (m : Module)

/-- CPython ast._splitlines_no_ff, recursively over the character list:
split into lines keeping the line terminators, with a carriage return and an
immediately following line feed kept together.  (Form-feed handling of newer
CPython versions is not modelled; no input in this development contains a
form feed.) -/
def splitlinesAux : List Char → List Char → List (List Char)
  | [], acc => if acc.isEmpty then [] else [acc]
  | [c], acc => [acc ++ [c]]
  | c :: c2 :: rest2, acc =>
    if c = Char.ofNat 13 then
      if c2 = Char.ofNat 10 then (acc ++ [c, c2]) :: splitlinesAux rest2 []
      else (acc ++ [c]) :: splitlinesAux (c2 :: rest2) []
    else if c = Char.ofNat 10 then (acc ++ [c]) :: splitlinesAux (c2 :: rest2) []
    else splitlinesAux (c2 :: rest2) (acc ++ [c])
termination_by l _ => l.length

/-- CPython ast._splitlines_no_ff on a string. -/
def splitlines_no_ff (source : String) : List String :=
  (splitlinesAux source.toList []).map List.asString

/-- A Python slice line[a:b] of one source line.  CPython slices the UTF-8
byte encoding; for the ASCII sources considered here byte offsets and
character offsets coincide. -/
def sliceLine (line : String) (a b : Nat) : String :=
  ((line.toList.drop a).take (b - a)).asString

/-- CPython ast.get_source_segment(source, node) with padded=False: returns
none when the node lacks end positions (checked before the source argument
is touched); otherwise splits the source into lines, which applies len() to
the argument and therefore raises TypeError when the argument is a Module
object rather than a string; on a string it returns the text between
(lineno, col_offset) and (end_lineno, end_col_offset), both line numbers
1-based.  (CPython would raise an IndexError on line numbers beyond the end
of the string; parse positions are always in range, and the string branch is
never reached from the repository code, which always passes the tree.) -/
def get_source_segment (source : SourceArg) (node : AstNode) :
    Except PyExc (Option String) :=
  match node.end_lineno, node.end_col_offset with
  | none, _ => Except.ok none
  | some _, none => Except.ok none
  | some node_end_lineno, some end_col_offset =>
    match source with
    | SourceArg.ofModule _ => Except.error (PyExc.typeError moduleHasNoLen)
    | SourceArg.ofString s =>
      let lines := splitlines_no_ff s
      let lineno := node.lineno - 1
      let end_lineno := node_end_lineno - 1
      if end_lineno = lineno then
        Except.ok (some (sliceLine (lines.getD lineno ("")) node.col_offset
          end_col_offset))
      else
        let first := ((lines.getD lineno ("")).toList.drop node.col_offset).asString
        let last := ((lines.getD end_lineno ("")).toList.take end_col_offset).asString
        let middle := (lines.drop (lineno + 1)).take (end_lineno - (lineno + 1))
        Except.ok (some (String.join ([first] ++ middle ++ [last])))

/-- Python str.endswith, computed over the character lists. -/
def str_endswith (s suffix : String) : Bool :=
  List.isSuffixOf suffix.toList s.toList

/-- The Python prefix slice text[:n], computed over the character list. -/
def str_take (s : String) (n : Nat) : String :=
  (s.toList.take n).asString

/-- One chunk produced by parse_and_chunk_code: the dictionary built at
lines 46-51 of index_code.py. -/
structure Chunk where
  file_path : String
  type : String
  name : String
  code : String
  deriving DecidableEq

/-- A document of the vector collection: a chunk dictionary after main
attached the embedding field. -/
structure Doc where
  file_path : String
  type : String
  name : String
  code : String
  embedding : List PyFloat
  deriving DecidableEq

/-- An observable effect of a run: a line printed to stdout, or an operation
on the pymongo client (opening the client, delete_many on the collection,
insert_many of a batch of the given size, closing the client). -/
inductive Event
  | printed (msg : String)
  | clientOpened
  | deletedAll
  | insertedMany (count : Nat)
  | clientClosed
  deriving DecidableEq

/-- A Python source file together with the outcome of CPython ast.parse on
its content.  The parser is external to the repository; its result is
carried as data: parsed = Except.error msg models ast.parse raising a
SyntaxError with message msg.  Every concrete instance below is transcribed
from an actual CPython parse of the content. -/
structure PyFile where
  path : String
  content : String
  parsed : Except String Module
  deriving DecidableEq

/-- node.__class__.__name__ for the modelled node kinds. -/
def className : AstNodeKind → String
  | AstNodeKind.FunctionDef => "FunctionDef"
  | AstNodeKind.AsyncFunctionDef => "AsyncFunctionDef"
  | AstNodeKind.ClassDef => "ClassDef"
  | AstNodeKind.Other s => s

/-- The isinstance(node, (ast.FunctionDef, ast.AsyncFunctionDef,
ast.ClassDef)) test at line 44 of index_code.py. -/
def isDefNode (node : AstNode) : Bool :=
  match node.kind with
  | AstNodeKind.FunctionDef => true
  | AstNodeKind.AsyncFunctionDef => true
  | AstNodeKind.ClassDef => true
  | AstNodeKind.Other _ => false

namespace IndexCode

/-- Configuration constant of index_code.py. -/
def MONGO_URI : String := "YOUR_MONGODB_ATLAS_URI"

/-- Configuration constant of index_code.py. -/
def DB_NAME : String := "code_search_db"

/-- Configuration constant of index_code.py. -/
def COLLECTION_NAME : String := "code_embeddings"

/-- Configuration constant of index_code.py. -/
def CODE_ROOT_PATH : String := "/path/to/your/codebase"

/-- index_code.get_embedding: the placeholder embedding backend.  It prints
a progress line (the first 30 characters of the text) and returns the
constant 1024-dimensional vector whose entries are all 0.1.  It cannot
fail. -/
def get_embedding (text : String) : List Event × List PyFloat :=
  ([Event.printed ("Generating embedding for: " ++ str_take text 30 ++ "...")],
   List.replicate 1024 ((1 : ℚ) / 10))

/-- The walk loop of parse_and_chunk_code (lines 42-52 of index_code.py):
for each node of ast.walk(tree), a node passing the isinstance test has its
source segment extracted by ast.get_source_segment(tree, node) — the first
argument is the parsed tree, exactly as written in the source.  A raised
exception propagates (only ast.parse is guarded in the source, and only
against SyntaxError).  A falsy segment (None or the empty string) appends no
chunk. -/
def chunk_nodes (file_path : String) (tree : Module) :
    List AstNode → Except PyExc (List Chunk)
  | [] => Except.ok []
  | node :: rest =>
    if isDefNode node then
      match get_source_segment (SourceArg.ofModule tree) node with
      | Except.error e => Except.error e
      | Except.ok chunk_text =>
        match chunk_nodes file_path tree rest with
        | Except.error e => Except.error e
        | Except.ok tail =>
          match chunk_text with
          | none => Except.ok tail
          | some txt =>
            if txt.isEmpty then Except.ok tail
            else Except.ok ({ file_path := file_path, type := className node.kind,
                              name := node.name, code := txt } :: tail)
    else chunk_nodes file_path tree rest

/-- index_code.parse_and_chunk_code (lines 31-53): parse the file; a
SyntaxError is caught, a line starting with Could not parse is printed and
the empty list is returned; otherwise the walk loop runs and any exception
it raises propagates. -/
def parse_and_chunk_code (file : PyFile) :
    List Event × Except PyExc (List Chunk) :=
  match file.parsed with
  | Except.error e =>
    ([Event.printed ("Could not parse " ++ file.path ++ ": " ++ e)],
     Except.ok [])
  | Except.ok tree => ([], chunk_nodes file.path tree tree.walk_nodes)

/-- The per-chunk loop of main (lines 73-76 of index_code.py): each chunk
has get_embedding applied to its code, the embedding field attached, and is
appended to documents_to_insert.  There is no exception handling around the
call to get_embedding (the placeholder cannot fail). -/
def embed_chunks : List Chunk → List Event × List Doc
  | [] => ([], [])
  | c :: rest =>
    let e := get_embedding c.code
    let r := embed_chunks rest
    (e.1 ++ r.1,
     { file_path := c.file_path, type := c.type, name := c.name,
       code := c.code, embedding := e.2 } :: r.2)

/-- The file loop of main (lines 66-76 of index_code.py), over the os.walk
traversal flattened to the list of encountered files in walk order.  Only
files whose name ends in .py are processed; each is announced with a
Processing line, chunked, and its chunks embedded and appended.  An
exception raised while chunking a file propagates at once, abandoning the
remaining files. -/
def process_files : List PyFile → List Event × Except PyExc (List Doc)
  | [] => ([], Except.ok [])
  | file :: rest =>
    if str_endswith file.path (".py") then
      let ev0 := [Event.printed ("Processing: " ++ file.path)]
      match parse_and_chunk_code file with
      | (ev1, Except.error e) => (ev0 ++ ev1, Except.error e)
      | (ev1, Except.ok chunks) =>
        let embedded := embed_chunks chunks
        match process_files rest with
        | (evr, Except.error e) =>
          (ev0 ++ ev1 ++ embedded.1 ++ evr, Except.error e)
        | (evr, Except.ok more) =>
          (ev0 ++ ev1 ++ embedded.1 ++ evr, Except.ok (embedded.2 ++ more))
    else process_files rest

/-- collection.delete_many with an empty filter: removes every document of
the collection. -/
def delete_many (_collection : List Doc) : List Doc := []

/-- The outcome of one reindex run: the event trace, the final content of
the vector collection, and either the number of documents inserted (0 when
nothing was inserted) or the uncaught exception that terminated main. -/
structure IndexRunResult where
  events : List Event
  finalStore : List Doc
  outcome : Except PyExc Nat
  deriving DecidableEq

/-- index_code.main (lines 56-84) over an explicit file list and an initial
collection content: open the client, clear the collection, announce it, run
the file loop; when it completes, insert the accumulated documents (when
any) and print the count, or print that no chunks were indexed; finally
close the client.  client.close() is the last statement of the function body
and there is no try/finally, so an uncaught exception leaves the client
unclosed. -/
def main (files : List PyFile) (store : List Doc) : IndexRunResult :=
  let cleared := delete_many store
  let pres := [Event.clientOpened, Event.deletedAll,
               Event.printed ("Cleared collection: " ++ COLLECTION_NAME)]
  match process_files files with
  | (evs, Except.error e) =>
    { events := pres ++ evs, finalStore := cleared,
      outcome := Except.error e }
  | (evs, Except.ok docs) =>
    let insertEvents :=
      if docs.isEmpty then [Event.printed ("No code chunks were indexed.")]
      else [Event.insertedMany docs.length,
            Event.printed ("Indexed " ++ toString docs.length ++ " code chunks.")]
    { events := pres ++ evs ++ insertEvents ++ [Event.clientClosed],
      finalStore := cleared ++ docs, outcome := Except.ok docs.length }

end IndexCode

namespace QueryCode

/-- Configuration constant of query_code.py. -/
def MONGO_URI : String := "YOUR_MONGODB_ATLAS_URI"

/-- Configuration constant of query_code.py. -/
def DB_NAME : String := "code_search_db"

/-- Configuration constant of query_code.py. -/
def COLLECTION_NAME : String := "code_embeddings"

/-- query_code.get_embedding: the placeholder embedding backend of the query
side.  It prints a progress line and returns the constant 1024-dimensional
vector whose entries are all 0.1.  It cannot fail. -/
def get_embedding (text : String) : List Event × List PyFloat :=
  ([Event.printed ("Generating embedding for query: " ++ str_take text 30 ++ "...")],
   List.replicate 1024 ((1 : ℚ) / 10))

/-- One document returned by the aggregation: the projection stage of
query_code.py keeps file_path, name, type and code and annotates the
vectorSearchScore as score. -/
structure QueryResult where
  file_path : String
  name : String
  type : String
  code : String
  score : PyFloat
  deriving DecidableEq

/-- The vectorSearch stage of the aggregation pipeline built by search_code
(lines 27-36 of query_code.py): the named index, the vector field path, the
query vector, the candidate count and the result limit. -/
structure VectorSearchStage where
  index : String
  path : String
  queryVector : List PyFloat
  numCandidates : Nat
  limit : Nat
  deriving DecidableEq

/-- The stage search_code issues: index vector_index, path embedding, the
query embedding as vector, numCandidates hardcoded to 100, and the given
limit. -/
def search_pipeline_stage (query_embedding : List PyFloat) (limit : Nat) :
    VectorSearchStage :=
  { index := "vector_index", path := "embedding",
    queryVector := query_embedding, numCandidates := 100, limit := limit }

/-- Adjacent-pairs check that a score list is in non-strictly descending
order. -/
def sortedDescBy : List PyFloat → Bool
  | [] => true
  | [_] => true
  | a :: b :: rest => (decide (b ≤ a)) && sortedDescBy (b :: rest)

/-- Adjacent-pairs check that a score list is in strictly descending
order. -/
def strictSortedDescBy : List PyFloat → Bool
  | [] => true
  | [_] => true
  | a :: b :: rest => (decide (b < a)) && strictSortedDescBy (b :: rest)

/-- Modelled from the spec: the MongoDB Atlas store is an external
collaborator (spec sections 4.4 and 6), and a response it may return to a
vectorSearch stage is constrained by its contract to hold at most limit
documents, ordered by non-strictly descending score — when scores are equal
the relative order is store-dependent. -/
def vectorSearchValid (stage : VectorSearchStage)
    (response : List QueryResult) : Bool :=
  (decide (response.length ≤ stage.limit))
    && sortedDescBy (response.map QueryResult.score)

/-- query_code.search_code(query, limit=5) (lines 20-54; the source default
for limit is 5): open the client, embed the query, build the pipeline and
run collection.aggregate, close the client and return the result list
unchanged.  The aggregate call is the external store, passed here as a
function from the issued vectorSearch stage to either a pymongo failure or
the returned documents.  client.close() runs only after a successful
aggregate; a raised exception propagates past it. -/
def search_code (aggregate : VectorSearchStage → Except PyExc (List QueryResult))
    (query : String) (limit : Nat) :
    List Event × Except PyExc (List QueryResult) :=
  let qe := get_embedding query
  let stage := search_pipeline_stage qe.2 limit
  let pres := [Event.clientOpened] ++ qe.1
  match aggregate stage with
  | Except.error e => (pres, Except.error e)
  | Except.ok results => (pres ++ [Event.clientClosed], Except.ok results)

end QueryCode

/-- True when the first delete-all event of a trace precedes the first
insert event (or no insert occurs at all). -/
def clearedBeforeAnyInsert : List Event → Bool
  | [] => true
  | Event.insertedMany _ :: _ => false
  | Event.deletedAll :: _ => true
  | _ :: rest => clearedBeforeAnyInsert rest

/-- A non-definition ast node: the chunker only tests its kind, so the name
and position attributes are recorded as defaults (they are never read). -/
def otherNode (cls : String) : AstNode :=
  { kind := AstNodeKind.Other cls, name := "", lineno := 0, col_offset := 0,
    end_lineno := none, end_col_offset := none }

/-- A definition node with its name and 1-based source positions as
ast.parse reports them. -/
def defNode (kind : AstNodeKind) (nm : String) (l c el ec : Nat) : AstNode :=
  { kind := kind, name := nm, lineno := l, col_offset := c,
    end_lineno := some el, end_col_offset := some ec }

/-- A syntactically valid file holding exactly one function definition.
Walk order and node positions transcribed from CPython: Module,
FunctionDef f spanning (1,0)-(2,8), arguments, Pass. -/
def c1_file : PyFile :=
  { path := "example.py", content := "def f():\n    pass\n",
    parsed := Except.ok { walk_nodes :=
      [otherNode ("Module"), defNode AstNodeKind.FunctionDef ("f") 1 0 2 8,
       otherNode ("arguments"), otherNode ("Pass")] } }

/-- A syntactically valid file holding a class with one method.  Walk order
and node positions transcribed from CPython: Module, ClassDef A spanning
(1,0)-(3,12), FunctionDef m spanning (2,4)-(3,12), arguments, Pass, arg. -/
def c2_file : PyFile :=
  { path := "widget.py",
    content := "class A:\n    def m(self):\n        pass\n",
    parsed := Except.ok { walk_nodes :=
      [otherNode ("Module"), defNode AstNodeKind.ClassDef ("A") 1 0 3 12,
       defNode AstNodeKind.FunctionDef ("m") 2 4 3 12,
       otherNode ("arguments"), otherNode ("Pass"), otherNode ("arg")] } }

/-- A file whose content is syntactically invalid: ast.parse raises a
SyntaxError (message as CPython formats it, with the filename argument). -/
def c4_bad_file : PyFile :=
  { path := "bad.py", content := "def broken(:\n",
    parsed := Except.error ("invalid syntax (bad.py, line 1)") }

/-- A syntactically valid sibling file holding one function definition.
Walk order and node positions transcribed from CPython: Module, FunctionDef
g spanning (1,0)-(2,12), arguments, Return, Constant. -/
def c4_good_file : PyFile :=
  { path := "good.py", content := "def g():\n    return 1\n",
    parsed := Except.ok { walk_nodes :=
      [otherNode ("Module"), defNode AstNodeKind.FunctionDef ("g") 1 0 2 12,
       otherNode ("arguments"), otherNode ("Return"), otherNode ("Constant")] } }

/-- A syntactically valid file holding one function definition (positions
transcribed from CPython). -/
def c6_file : PyFile :=
  { path := "handlers.py", content := "def h():\n    pass\n",
    parsed := Except.ok { walk_nodes :=
      [otherNode ("Module"), defNode AstNodeKind.FunctionDef ("h") 1 0 2 8,
       otherNode ("arguments"), otherNode ("Pass")] } }

/-- A syntactically valid file holding one function definition (positions
transcribed from CPython). -/
def c7_file : PyFile :=
  { path := "models.py", content := "def k():\n    pass\n",
    parsed := Except.ok { walk_nodes :=
      [otherNode ("Module"), defNode AstNodeKind.FunctionDef ("k") 1 0 2 8,
       otherNode ("arguments"), otherNode ("Pass")] } }

/-- A syntactically valid file holding one async function definition.  Walk
order and node positions transcribed from CPython: Module, AsyncFunctionDef
g spanning (1,0)-(2,8), arguments, Pass. -/
def c10_file : PyFile :=
  { path := "tasks.py", content := "async def g():\n    pass\n",
    parsed := Except.ok { walk_nodes :=
      [otherNode ("Module"), defNode AstNodeKind.AsyncFunctionDef ("g") 1 0 2 8,
       otherNode ("arguments"), otherNode ("Pass")] } }

/-- A store response with two documents whose scores are tied: permitted by
the store contract (descending order is non-strict), used to refute strict
descent. -/
def c3_tie_response : List QueryCode.QueryResult :=
  [{ file_path := "a.py", name := "f", type := "FunctionDef",
     code := "def f(): pass", score := (7 : ℚ) },
   { file_path := "b.py", name := "g", type := "FunctionDef",
     code := "def g(): pass", score := (7 : ℚ) }]

/-- A store behaviour returning the tied response to every issued stage. -/
def c3_tie_store (_stage : QueryCode.VectorSearchStage) :
    Except PyExc (List QueryCode.QueryResult) :=
  Except.ok c3_tie_response

/-- A store response with two documents in strictly descending score order,
used as a concrete successful search. -/
def c3_ok_response : List QueryCode.QueryResult :=
  [{ file_path := "auth.py", name := "login", type := "FunctionDef",
     code := "def login(): ...", score := (9 : ℚ) },
   { file_path := "auth.py", name := "logout", type := "FunctionDef",
     code := "def logout(): ...", score := (8 : ℚ) }]

/-- A store behaviour returning the descending response to every issued
stage. -/
def c3_ok_store (_stage : QueryCode.VectorSearchStage) :
    Except PyExc (List QueryCode.QueryResult) :=
  Except.ok c3_ok_response

/-- Claim C1: parse_and_chunk_code on a syntactically valid file does not
return one chunk per definition — on a file holding a single function
definition it raises TypeError, because ast.get_source_segment is called
with the parsed tree as its source argument and CPython applies len() to
it.  The run result is the propagated TypeError, not a one-chunk list. -/
theorem C1_chunker_raises_type_error_on_function_file :
    (IndexCode.parse_and_chunk_code c1_file).2
      = Except.error (PyExc.typeError moduleHasNoLen) := by
  rfl

/-- Claim C2: parse_and_chunk_code never gets to extract the verbatim source
span — on a file holding a class with one method it raises TypeError at the
first definition node (same root cause as C1), so no chunk carrying any code
field is produced at all. -/
theorem C2_no_verbatim_span_is_ever_extracted :
    (IndexCode.parse_and_chunk_code c2_file).2
      = Except.error (PyExc.typeError moduleHasNoLen) := by
  rfl

/-- Claim C10: the invariant on returned chunks cannot be exhibited — on a
file holding one async function definition parse_and_chunk_code raises
TypeError before building any chunk, so the type and non-emptiness filters
of lines 44-52 are dead code and the function never returns a chunk for any
file containing a definition. -/
theorem C10_no_chunk_is_ever_produced :
    (IndexCode.parse_and_chunk_code c10_file).2
      = Except.error (PyExc.typeError moduleHasNoLen) := by
  rfl

/-- Claim C4: a reindex over a syntax-error file and a valid sibling: the
parse failure itself is logged (the Could not parse line) and contributes
zero chunks as claimed, but the sibling does NOT contribute its chunks — the
run aborts with the TypeError raised while chunking the sibling, the
collection stays empty and the client is never closed. -/
theorem C4_sibling_contributes_nothing :
    IndexCode.main [c4_bad_file, c4_good_file] []
      = { events := [Event.clientOpened, Event.deletedAll,
            Event.printed ("Cleared collection: code_embeddings"),
            Event.printed ("Processing: bad.py"),
            Event.printed ("Could not parse bad.py: invalid syntax (bad.py, line 1)"),
            Event.printed ("Processing: good.py")],
          finalStore := [],
          outcome := Except.error (PyExc.typeError moduleHasNoLen) } := by
  decide

/-- Claim C6: a reindex over a file holding one function definition
terminates with the TypeError raised by the chunker before any embedding
happens: the event trace holds no Generating embedding line and no insert,
so the per-chunk embedding loop of lines 73-76 (which itself has no
exception handling) is never reached, and no skip-and-continue behaviour
exists anywhere in the run. -/
theorem C6_embedding_loop_is_never_reached :
    IndexCode.main [c6_file] []
      = { events := [Event.clientOpened, Event.deletedAll,
            Event.printed ("Cleared collection: code_embeddings"),
            Event.printed ("Processing: handlers.py")],
          finalStore := [],
          outcome := Except.error (PyExc.typeError moduleHasNoLen) } := by
  decide

/-- Claim C5: reindexing fully replaces the prior generation.  The whole run
result (event trace, final collection content, reported count) is identical
for any two initial collection states, because delete_many clears the
collection before anything else touches it; the delete-all event precedes
any insert event in the trace; and a second reindex over the collection left
by a first one reproduces the first run exactly, so identical input yields
the same written count both times with no duplicate accumulation. -/
theorem C5_reindex_replaces_prior_generation
    (files : List PyFile) (s1 s2 : List Doc) :
    IndexCode.main files s1 = IndexCode.main files s2
    ∧ clearedBeforeAnyInsert (IndexCode.main files s1).events = true
    ∧ IndexCode.main files (IndexCode.main files s1).finalStore
        = IndexCode.main files s1 := by
  refine ⟨rfl, ?_, rfl⟩
  rcases hp : IndexCode.process_files files with ⟨evs, r⟩
  cases r with
  | error e => simp [IndexCode.main, hp, clearedBeforeAnyInsert]
  | ok docs => simp [IndexCode.main, hp, clearedBeforeAnyInsert]

/-- Claim C7 (counterexample): a reindex over a file holding one function
definition exits via the chunker TypeError and the client is never closed —
client.close() is the last statement of main with no try/finally, so the
store connection is not released on this exit path. -/
theorem C7_close_skipped_on_erroring_exit :
    (IndexCode.main [c7_file] []).outcome
        = Except.error (PyExc.typeError moduleHasNoLen)
    ∧ Event.clientClosed ∉ (IndexCode.main [c7_file] []).events := by
  constructor
  · decide
  · decide

/-- Claim C7 (amended): the store connection is released on the successful
exit path of both operations — a reindex whose outcome is a count closes the
client, and a search whose aggregate succeeds closes the client; on erroring
exit paths the connection is not released (see the counterexample). -/
theorem C7_close_on_successful_exit
    (files : List PyFile) (store : List Doc)
    (agg : QueryCode.VectorSearchStage → Except PyExc (List QueryCode.QueryResult))
    (query : String) (lim : Nat) :
    (∀ n, (IndexCode.main files store).outcome = Except.ok n →
      Event.clientClosed ∈ (IndexCode.main files store).events)
    ∧ (∀ rs, (QueryCode.search_code agg query lim).2 = Except.ok rs →
      Event.clientClosed ∈ (QueryCode.search_code agg query lim).1) := by
  constructor
  · intro n h
    rcases hp : IndexCode.process_files files with ⟨evs, r⟩
    cases r with
    | error e => simp [IndexCode.main, hp] at h
    | ok docs => simp [IndexCode.main, hp]
  · intro rs h
    rcases ha : agg (QueryCode.search_pipeline_stage
        (QueryCode.get_embedding query).2 lim) with e | res
    · simp [QueryCode.search_code, ha] at h
    · simp [QueryCode.search_code, ha]

/-- Witness for the amended C7: a reindex over no files succeeds and closes
the client, and a search against a store returning no documents succeeds and
closes the client. -/
theorem C7_close_on_successful_exit_witness :
    Event.clientClosed ∈ (IndexCode.main [] []).events
    ∧ Event.clientClosed
        ∈ (QueryCode.search_code (fun _ => Except.ok []) ("x") 5).1 := by
  refine ⟨?_, ?_⟩
  · exact (C7_close_on_successful_exit [] [] (fun _ => Except.ok []) ("x") 5).1
      0 (by decide)
  · exact (C7_close_on_successful_exit [] [] (fun _ => Except.ok []) ("x") 5).2
      [] rfl

/-- Claim C3 (counterexample): the returned sequence is NOT strictly
descending in general — a store response with two tied scores is valid under
the store contract, search_code returns it unchanged, and the result fails
the strict-descent check. -/
theorem C3_strict_descent_fails_on_tied_scores :
    QueryCode.vectorSearchValid
        (QueryCode.search_pipeline_stage
          (QueryCode.get_embedding ("How is user authentication handled?")).2 5)
        c3_tie_response = true
    ∧ (QueryCode.search_code c3_tie_store
        ("How is user authentication handled?") 5).2 = Except.ok c3_tie_response
    ∧ QueryCode.strictSortedDescBy
        (c3_tie_response.map QueryCode.QueryResult.score) = false := by
  refine ⟨by decide, rfl, by decide⟩

/-- Claim C3 (amended): search_code returns the store response unchanged, so
under the store contract every call returns at most limit results ordered by
NON-strictly descending score; when scores are tied the order is
store-dependent, and strict descent fails (see the counterexample). -/
theorem C3_at_most_limit_and_descending
    (agg : QueryCode.VectorSearchStage → Except PyExc (List QueryCode.QueryResult))
    (query : String) (lim : Nat) (response : List QueryCode.QueryResult)
    (ha : agg (QueryCode.search_pipeline_stage
        (QueryCode.get_embedding query).2 lim) = Except.ok response)
    (hv : QueryCode.vectorSearchValid
        (QueryCode.search_pipeline_stage
          (QueryCode.get_embedding query).2 lim) response = true) :
    (QueryCode.search_code agg query lim).2 = Except.ok response
    ∧ response.length ≤ lim
    ∧ QueryCode.sortedDescBy
        (response.map QueryCode.QueryResult.score) = true := by
  have h := hv
  simp only [QueryCode.vectorSearchValid, QueryCode.search_pipeline_stage,
    Bool.and_eq_true, decide_eq_true_eq] at h
  exact ⟨by simp [QueryCode.search_code, ha], h.1, h.2⟩

/-- Witness for the amended C3: a concrete search over a store returning two
documents with strictly descending scores. -/
theorem C3_at_most_limit_and_descending_witness :
    (QueryCode.search_code c3_ok_store
        ("How is user authentication handled?") 5).2 = Except.ok c3_ok_response
    ∧ c3_ok_response.length ≤ 5
    ∧ QueryCode.sortedDescBy
        (c3_ok_response.map QueryCode.QueryResult.score) = true :=
  C3_at_most_limit_and_descending c3_ok_store
    ("How is user authentication handled?") 5 c3_ok_response rfl (by decide)

/-- Claim C8 (counterexample): the vectorSearch stage issued by a call with
limit 101 carries numCandidates = 100, which is NOT greater than or equal to
the requested limit. -/
theorem C8_candidates_below_limit_at_101 :
    ¬ (101 ≤ (QueryCode.search_pipeline_stage
        (QueryCode.get_embedding ("How is user authentication handled?")).2
        101).numCandidates) := by
  decide

/-- Claim C8 (amended): the stage issued by search_code carries the
hardcoded candidate count 100, so the claimed inequality numCandidates ≥
limit holds exactly for limit ≤ 100 — in particular for the default limit
of 5 — and fails for larger limits (see the counterexample). -/
theorem C8_num_candidates_hardcoded_100
    (query_embedding : List PyFloat) (lim : Nat) (h : lim ≤ 100) :
    (QueryCode.search_pipeline_stage query_embedding lim).numCandidates = 100
    ∧ lim ≤ (QueryCode.search_pipeline_stage query_embedding lim).numCandidates := by
  exact ⟨rfl, h⟩

/-- Witness for the amended C8: the default limit 5 is below the hardcoded
candidate count. -/
theorem C8_num_candidates_hardcoded_100_witness :
    (QueryCode.search_pipeline_stage
        (QueryCode.get_embedding ("q")).2 5).numCandidates = 100
    ∧ 5 ≤ (QueryCode.search_pipeline_stage
        (QueryCode.get_embedding ("q")).2 5).numCandidates :=
  C8_num_candidates_hardcoded_100 (QueryCode.get_embedding ("q")).2 5
    (by decide)

/-- Claim C9: for every input text both placeholder embedders return a
vector of the fixed dimension 1024, so embedding a text and re-embedding the
identical text yields vectors of identical dimension every time and never a
vector of the wrong dimension. -/
theorem C9_embedding_dimension_always_1024 (text : String) :
    (IndexCode.get_embedding text).2.length = 1024
    ∧ (QueryCode.get_embedding text).2.length = 1024 := by
  exact ⟨List.length_replicate 1024 ((1 : ℚ) / 10),
    List.length_replicate 1024 ((1 : ℚ) / 10)⟩

end LucianRag
